import Mathlib

/-!
Verification development for the `grab` screen-capture application.

The definitions below are a shallow embedding of the TypeScript source:

* `src/main/capture/coordinates.ts` — coordinate normalization utilities;
* `src/main/capture/naming.ts` — file-name generation and sanitization;
* `src/main/capture/engine.ts` — the capture orchestrator;
* `src/main/export/exporter.ts` — the export coordinator;
* `src/main/regionOverlay.ts` — the region-selection overlay session.

JavaScript numbers are modelled by `ℚ` (exact rational arithmetic standing
in for IEEE doubles; all quantities involved are small enough that double
rounding does not occur in the scenarios proved about).  `Math.round x` is
`⌊x + 1/2⌋` (JavaScript rounds half-way cases toward positive infinity).
Platform collaborators (Electron `screen`, `desktopCapturer`, the file
system and the clipboard) are modelled by explicit environment records, and
calls to the pixel-grab primitive `desktopCapturer.getSources` are recorded
in an effect trace so that statements of the form "rejected before any grab
occurs" can be expressed.
-/

/-- JavaScript `Math.round`: round half toward positive infinity. -/
def jsRound (q : ℚ) : ℤ := ⌊q + 1/2⌋

/-- The `RegionBounds` shape from `shared/types.ts`: `{ x, y, width, height }`. -/
structure RegionBounds where
  x : ℚ
  y : ℚ
  width : ℚ
  height : ℚ
deriving DecidableEq, Repr

/-- A `{ width, height }` size as returned by `NativeImage.getSize()` or
`display.size`. -/
structure NativeSize where
  width : ℚ
  height : ℚ
deriving DecidableEq, Repr

/-- An Electron `Display`: id (already stringified, the code always compares
via `String(d.id)`), bounds in the virtual screen, size, and DPI scale. -/
structure DisplayInfo where
  id : String
  bounds : RegionBounds
  size : NativeSize
  scaleFactor : ℚ
deriving DecidableEq, Repr

/-- A `NativeImage`, modelled by its pixel size and PNG encoding.  The pixel
contents are produced by the external capture primitive and are not
modelled. -/
structure NativeImage where
  size : NativeSize
  png : List Nat
deriving DecidableEq, Repr

/-- `NativeImage.toPNG()`. -/
def NativeImage.toPNG (img : NativeImage) : List Nat := img.png

/-- A desktop-capturer source (`DesktopCapturerSource`): id, name, the
display it reports, and its thumbnail image. -/
structure SourceInfo where
  id : String
  name : String
  display_id : String
  thumbnail : NativeImage
deriving DecidableEq, Repr

/-! ## Coordinate normalizer (`src/main/capture/coordinates.ts`) -/

/-- `getVirtualScreenBounds()` from `coordinates.ts`.  The display list and
the primary display are the results of the two Electron `screen` queries the
function makes.  The source folds `min`/`max` starting from `±Infinity`;
over a non-empty list this equals folding from the first display's values,
which is how the non-empty branch is rendered here. -/
def getVirtualScreenBounds (displays : List DisplayInfo) (primary : DisplayInfo) :
    RegionBounds :=
  match displays with
  | [] =>
    { x := 0, y := 0, width := primary.bounds.width, height := primary.bounds.height }
  | d :: rest =>
    let step := fun (acc : ℚ × ℚ × ℚ × ℚ) (dd : DisplayInfo) =>
      (min acc.1 dd.bounds.x,
       min acc.2.1 dd.bounds.y,
       max acc.2.2.1 (dd.bounds.x + dd.bounds.width),
       max acc.2.2.2 (dd.bounds.y + dd.bounds.height))
    let r := rest.foldl step
      (d.bounds.x, d.bounds.y, d.bounds.x + d.bounds.width, d.bounds.y + d.bounds.height)
    { x := r.1, y := r.2.1, width := r.2.2.1 - r.1, height := r.2.2.2 - r.2.1 }

/-- `normalizeToImageCoords(bounds, scaleFactor)`: multiply each component by
the scale factor and `Math.round` it independently. -/
def normalizeToImageCoords (bounds : RegionBounds) (scaleFactor : ℚ) : RegionBounds :=
  { x := (jsRound (bounds.x * scaleFactor) : ℚ),
    y := (jsRound (bounds.y * scaleFactor) : ℚ),
    width := (jsRound (bounds.width * scaleFactor) : ℚ),
    height := (jsRound (bounds.height * scaleFactor) : ℚ) }

/-- `normalizeToScreenCoords(bounds, scaleFactor)`: divide each component by
the scale factor and `Math.round` it independently. -/
def normalizeToScreenCoords (bounds : RegionBounds) (scaleFactor : ℚ) : RegionBounds :=
  { x := (jsRound (bounds.x / scaleFactor) : ℚ),
    y := (jsRound (bounds.y / scaleFactor) : ℚ),
    width := (jsRound (bounds.width / scaleFactor) : ℚ),
    height := (jsRound (bounds.height / scaleFactor) : ℚ) }

/-- `clampRegionToDisplay(region, displayBounds)` from `coordinates.ts`. -/
def clampRegionToDisplay (region displayBounds : RegionBounds) : RegionBounds :=
  let x := max displayBounds.x (min region.x (displayBounds.x + displayBounds.width))
  let y := max displayBounds.y (min region.y (displayBounds.y + displayBounds.height))
  let width := min region.width (displayBounds.x + displayBounds.width - x)
  let height := min region.height (displayBounds.y + displayBounds.height - y)
  { x := x, y := y, width := width, height := height }

/-- `isValidRegion(region)`: positive width and height. -/
def isValidRegion (region : RegionBounds) : Bool :=
  region.width > 0 && region.height > 0

theorem jsRound_sub_le (q : ℚ) : |(jsRound q : ℚ) - q| ≤ 1/2 := by
  rw [abs_sub_le_iff]
  constructor
  · have h := Int.floor_le (q + 1/2)
    rw [jsRound]
    push_cast at h ⊢
    linarith
  · have h := Int.lt_floor_add_one (q + 1/2)
    rw [jsRound]
    push_cast at h ⊢
    linarith

/-! ## Naming engine (`src/main/capture/naming.ts`) -/

/-- Local date-time components as observed through `Date.getFullYear`,
`getMonth() + 1`, `getDate`, `getHours`, `getMinutes`, `getSeconds`.
The source reads a `Date` through exactly these six accessors. -/
structure DateParts where
  year : Nat
  month : Nat
  day : Nat
  hour : Nat
  minute : Nat
  second : Nat
deriving DecidableEq, Repr

/-- `String(n).padStart(2, '0')` for the natural numbers the naming code
formats. -/
def pad2 (n : Nat) : String :=
  if n < 10 then "0" ++ toString n else toString n

/-- `formatDate`: `YYYYMMDD`. -/
def formatDate (d : DateParts) : String :=
  toString d.year ++ pad2 d.month ++ pad2 d.day

/-- `formatTime`: `HHmmss`. -/
def formatTime (d : DateParts) : String :=
  pad2 d.hour ++ pad2 d.minute ++ pad2 d.second

/-- Characters removed by the first `replace` of `sanitizeFileName`:
the class `[<>:"/\\|?*\x00-\x1f]`. -/
def isIllegalChar (c : Char) : Bool :=
  c == '<' || c == '>' || c == ':' || c == '"' || c == '/' || c == '\\' ||
  c == '|' || c == '?' || c == '*' || c.toNat ≤ 0x1f

/-- JavaScript regular-expression `\s`: ASCII whitespace, the line and
paragraph separators, and the Unicode space separators including the BOM. -/
def isJsSpace (c : Char) : Bool :=
  c == ' ' || c == '\t' || c == '\n' || c == '\x0b' || c == '\x0c' ||
  c == '\r' || c.toNat == 0xa0 || c.toNat == 0x1680 ||
  (0x2000 ≤ c.toNat && c.toNat ≤ 0x200a) ||
  c.toNat == 0x2028 || c.toNat == 0x2029 || c.toNat == 0x202f ||
  c.toNat == 0x205f || c.toNat == 0x3000 || c.toNat == 0xfeff

/-- `str.replace` of a `/p+/g` pattern by the single character `r`: every
maximal run of characters satisfying `p` is replaced by one `r`.  The flag
records whether the previous character belonged to a run. -/
def collapseRuns (p : Char → Bool) (r : Char) : Bool → List Char → List Char
  | _, [] => []
  | inRun, c :: cs =>
    if p c then
      if inRun then collapseRuns p r true cs
      else r :: collapseRuns p r true cs
    else c :: collapseRuns p r false cs

/-- `str.replace(/^-+|-+$/g, '')`: drop the leading and the trailing run of
dashes. -/
def trimDashes (l : List Char) : List Char :=
  (((l.dropWhile (· == '-')).reverse.dropWhile (· == '-')).reverse)

/-- `sanitizeFileName` from `naming.ts`, on character lists: remove illegal
characters, replace whitespace runs by single dashes, collapse dash runs,
trim leading/trailing dashes, and truncate to 100 characters. -/
def sanitizeChars (l : List Char) : List Char :=
  ((trimDashes
      (collapseRuns (· == '-') '-' false
        (collapseRuns isJsSpace '-' false
          (l.filter (fun c => !isIllegalChar c))))).take 100)

/-- `sanitizeFileName` on strings. -/
def sanitizeFileName (s : String) : String :=
  ⟨sanitizeChars s.data⟩

/-- `CaptureMode` from `shared/types.ts`:
`'full-screen' | 'display' | 'window' | 'region'`. -/
inductive CaptureMode where
  | fullScreen
  | display
  | window
  | region
deriving DecidableEq, Repr

/-- `getModeLabel`.  `CaptureMode` is a four-way union type, so the
`default: 'capture'` arm of the source `switch` is unreachable and has no
counterpart here. -/
def getModeLabel : CaptureMode → String
  | .fullScreen => "fullscreen"
  | .display => "display"
  | .window => "window"
  | .region => "region"

/-- `FileNameOptions`.  The source defaults `timestamp` to `new Date()`;
the embedding always receives the timestamp explicitly since the clock is
an external collaborator. -/
structure FileNameOptions where
  mode : CaptureMode
  target : Option String := none
  ext : Option String := none
  timestamp : DateParts
deriving DecidableEq, Repr

/-- The optional `-{sanitizedTarget}` segment of `generateFileName`: appended
only when a target is supplied and its sanitized form is non-empty. -/
def targetSegment (target : Option String) : String :=
  match target with
  | none => ""
  | some t =>
    let st := sanitizeFileName t
    if st = "" then "" else "-" ++ st

/-- `generateFileName(options)` from `naming.ts`. -/
def generateFileName (options : FileNameOptions) : String :=
  "grab-" ++ formatDate options.timestamp ++ "-" ++ formatTime options.timestamp ++
    "-" ++ getModeLabel options.mode ++ targetSegment options.target ++
    "." ++ options.ext.getD "png"

/-- `generateFilePath(outputFolder, options)`; `path.join` on POSIX-style
segments is rendered as slash concatenation. -/
def generateFilePath (outputFolder : String) (options : FileNameOptions) : String :=
  outputFolder ++ "/" ++ generateFileName options

/-! ## Capture orchestrator (`src/main/capture/engine.ts`) -/

/-- `CaptureErrorCode` from `shared/types.ts`. -/
inductive CaptureErrorCode where
  | PERMISSION_DENIED
  | SOURCE_NOT_FOUND
  | CAPTURE_FAILED
  | EXPORT_FAILED
  | CLIPBOARD_FAILED
  | INVALID_REQUEST
  | CANCELLED
deriving DecidableEq, Repr

/-- A thrown JavaScript value: either a plain `new Error(message)` (what the
engine and the exporter actually throw) or a `CaptureError` record carrying
a `CaptureErrorCode` (what `createCaptureError` would build). -/
inductive JsError where
  | plain (message : String)
  | coded (code : CaptureErrorCode) (message : String) (details : Option String)
deriving DecidableEq, Repr

/-- The `CaptureErrorCode` carried by a thrown value, if any. -/
def JsError.errCode : JsError → Option CaptureErrorCode
  | .plain _ => none
  | .coded c _ _ => some c

/-- `createCaptureError(code, message, details)` from `engine.ts`. -/
def createCaptureError (code : CaptureErrorCode) (message : String)
    (details : Option String) : JsError :=
  .coded code message details

/-- The two source kinds accepted by `desktopCapturer.getSources`. -/
inductive SourceType where
  | screen
  | window
deriving DecidableEq, Repr

/-- One recorded call to the pixel-grab primitive
`desktopCapturer.getSources({types, ...})`. -/
inductive GrabEffect where
  | getSources (types : List SourceType)
deriving DecidableEq, Repr

/-- The platform screen environment during one capture call: the Electron
`screen` answers and the `desktopCapturer` source lists, held constant for
the duration of the call. -/
structure ScreenEnv where
  displays : List DisplayInfo
  primary : DisplayInfo
  screenSources : List SourceInfo
  windowSources : List SourceInfo
deriving DecidableEq, Repr

/-- The sources `desktopCapturer.getSources({types})` returns: screens
first, then windows, matching the requested kinds. -/
def ScreenEnv.sourcesFor (env : ScreenEnv) (types : List SourceType) : List SourceInfo :=
  (if SourceType.screen ∈ types then env.screenSources else []) ++
    (if SourceType.window ∈ types then env.windowSources else [])

/-- `getDisplayById(displayId)` from `coordinates.ts`. -/
def getDisplayById (env : ScreenEnv) (displayId : String) : Option DisplayInfo :=
  env.displays.find? (fun d => d.id == displayId)

/-- The result record shared by the three single-source capture helpers in
`engine.ts`. -/
structure GrabOutcome where
  image : NativeImage
  bounds : RegionBounds
  scaleFactor : ℚ
  displayId : Option String := none
  windowId : Option String := none
deriving DecidableEq, Repr

/-- `captureFullScreen()` from `engine.ts`: enumerate the screens, pick the
source whose `display_id` matches the primary display (falling back to the
first source), re-enumerate at full resolution, and return the primary
display's bounds and scale factor. -/
def captureFullScreen (env : ScreenEnv) :
    Except JsError GrabOutcome × List GrabEffect :=
  let sources := env.sourcesFor [.screen]
  match sources with
  | [] => (.error (.plain "No screen sources available"), [.getSources [.screen]])
  | s0 :: _ =>
    let primarySource := (sources.find? (fun s => s.display_id == env.primary.id)).getD s0
    let largerSources := env.sourcesFor [.screen]
    let source := (largerSources.find? (fun s => s.id == primarySource.id)).getD s0
    (.ok { image := source.thumbnail,
           bounds := { x := env.primary.bounds.x, y := env.primary.bounds.y,
                       width := env.primary.bounds.width,
                       height := env.primary.bounds.height },
           scaleFactor := env.primary.scaleFactor,
           displayId := some primarySource.display_id },
     [.getSources [.screen], .getSources [.screen]])

/-- `captureDisplay(displayId)` from `engine.ts`: resolve the display first
(no enumeration happens when it is absent), then find the matching screen
source. -/
def captureDisplay (env : ScreenEnv) (displayId : String) :
    Except JsError GrabOutcome × List GrabEffect :=
  match getDisplayById env displayId with
  | none => (.error (.plain ("Display not found: " ++ displayId)), [])
  | some display =>
    match (env.sourcesFor [.screen]).find? (fun s => s.display_id == displayId) with
    | none =>
      (.error (.plain ("Screen source not found for display: " ++ displayId)),
       [.getSources [.screen]])
    | some source =>
      (.ok { image := source.thumbnail,
             bounds := { x := display.bounds.x, y := display.bounds.y,
                         width := display.bounds.width, height := display.bounds.height },
             scaleFactor := display.scaleFactor,
             displayId := some displayId },
       [.getSources [.screen]])

/-- `captureWindow(windowId)` from `engine.ts`: enumerate the window sources
at a resolution derived from the primary display, and return bounds at
origin `(0,0)` with the thumbnail size divided by the primary display's
scale factor. -/
def captureWindow (env : ScreenEnv) (windowId : String) :
    Except JsError GrabOutcome × List GrabEffect :=
  match (env.sourcesFor [.window]).find? (fun s => s.id == windowId) with
  | none =>
    (.error (.plain ("Window source not found: " ++ windowId)), [.getSources [.window]])
  | some source =>
    (.ok { image := source.thumbnail,
           bounds := { x := 0, y := 0,
                       width := source.thumbnail.size.width / env.primary.scaleFactor,
                       height := source.thumbnail.size.height / env.primary.scaleFactor },
           scaleFactor := env.primary.scaleFactor,
           windowId := some windowId },
     [.getSources [.window]])

/-- `cropImage(image, region, scaleFactor)` from `engine.ts`: crop to the
region scaled by `normalizeToImageCoords`-style rounding.  The cropped
image's size is the scaled region's size; the pixel contents are produced by
the external `NativeImage.crop` primitive. -/
def cropImage (image : NativeImage) (region : RegionBounds) (scaleFactor : ℚ) :
    NativeImage :=
  let scaledRegion :=
    { x := (jsRound (region.x * scaleFactor) : ℚ),
      y := (jsRound (region.y * scaleFactor) : ℚ),
      width := (jsRound (region.width * scaleFactor) : ℚ),
      height := (jsRound (region.height * scaleFactor) : ℚ) : RegionBounds }
  { size := { width := scaledRegion.width, height := scaledRegion.height },
    png := image.png }

/-- `CaptureRequest` from `shared/types.ts` (the fields `engine.ts` reads). -/
structure CaptureRequest where
  mode : CaptureMode
  displayId : Option String := none
  windowId : Option String := none
  region : Option RegionBounds := none
deriving DecidableEq, Repr

/-- `CaptureMetadata` from `shared/types.ts`. -/
structure CaptureMetadata where
  mode : CaptureMode
  displayId : Option String := none
  windowId : Option String := none
  bounds : RegionBounds
  timestamp : DateParts
  scaleFactor : ℚ
  fileName : String
deriving DecidableEq, Repr

/-- JavaScript `a || b` on optional strings: the empty string is falsy. -/
def jsOrString (a b : Option String) : Option String :=
  match a with
  | some s => if s = "" then b else some s
  | none => b

/-- The `target` argument `engine.ts` passes to `generateFileName`:
`displayId || windowId || (mode === 'region' ? 'region' : undefined)`. -/
def captureTarget (mode : CaptureMode) (displayId windowId : Option String) :
    Option String :=
  jsOrString displayId
    (jsOrString windowId (if mode = .region then some "region" else none))

/-- `capture(request)` from `engine.ts`: mode dispatch, region validation
and cropping, then metadata assembly.  `now` is the wall clock read by
`new Date()`. -/
def capture (env : ScreenEnv) (now : DateParts) (request : CaptureRequest) :
    Except JsError (NativeImage × CaptureMetadata) × List GrabEffect :=
  let branch : Except JsError GrabOutcome × List GrabEffect :=
    match request.mode with
    | .fullScreen => captureFullScreen env
    | .display =>
      match request.displayId with
      | none => (.error (.plain "displayId required for display capture"), [])
      | some displayId => captureDisplay env displayId
    | .window =>
      match request.windowId with
      | none => (.error (.plain "windowId required for window capture"), [])
      | some windowId => captureWindow env windowId
    | .region =>
      match request.region with
      | none => (.error (.plain "Valid region required for region capture"), [])
      | some region =>
        if !isValidRegion region then
          (.error (.plain "Valid region required for region capture"), [])
        else
          let fullResult :=
            match request.displayId with
            | some displayId => captureDisplay env displayId
            | none => captureFullScreen env
          match fullResult with
          | (.error e, effs) => (.error e, effs)
          | (.ok fr, effs) =>
            (.ok { image := cropImage fr.image region fr.scaleFactor,
                   bounds := region,
                   scaleFactor := fr.scaleFactor,
                   displayId := fr.displayId },
             effs)
  match branch with
  | (.error e, effs) => (.error e, effs)
  | (.ok outcome, effs) =>
    let fileName := generateFileName
      { mode := request.mode,
        target := captureTarget request.mode outcome.displayId outcome.windowId,
        timestamp := now }
    (.ok (outcome.image,
          { mode := request.mode,
            displayId := outcome.displayId,
            windowId := outcome.windowId,
            bounds := outcome.bounds,
            timestamp := now,
            scaleFactor := outcome.scaleFactor,
            fileName := fileName }),
     effs)

/-! ## Export coordinator (`src/main/export/exporter.ts`) -/

/-- `ExportOptions`. -/
structure ExportOptions where
  saveToDisk : Bool
  copyToClipboard : Bool
  outputFolder : String
deriving DecidableEq, Repr

/-- `ExportResult`: optional saved path, clipboard flag, PNG buffer. -/
structure ExportResult where
  filePath : Option String := none
  copiedToClipboard : Bool
  buffer : List Nat
deriving DecidableEq, Repr

/-- The file-system and clipboard collaborators during one export call:
`diskError` is the error thrown by `ensureOutputDir`/`fs.writeFileSync` when
the disk write fails (`none` when it succeeds), and `clipError` likewise for
`clipboard.writeImage`. -/
structure FsEnv where
  diskError : Option String := none
  clipError : Option String := none
deriving DecidableEq, Repr

/-- The target `exporter.ts` passes to `generateFilePath`:
`metadata.displayId || metadata.windowId || (mode === 'region' ? 'region' : undefined)`. -/
def exportTarget (metadata : CaptureMetadata) : Option String :=
  captureTarget metadata.mode metadata.displayId metadata.windowId

/-- `saveToDisk(image, metadata, outputFolder)` from `exporter.ts`: ensure
the directory, derive the path with the naming engine, write the PNG.  Both
failure points propagate their error. -/
def saveToDiskFn (metadata : CaptureMetadata) (outputFolder : String)
    (env : FsEnv) : Except JsError String :=
  match env.diskError with
  | some e => .error (.plain e)
  | none =>
    .ok (generateFilePath outputFolder
      { mode := metadata.mode,
        target := exportTarget metadata,
        timestamp := metadata.timestamp })

/-- `exportCapture(image, metadata, options)` from `exporter.ts`: attempt the
disk save (failure logged and swallowed), then the clipboard copy (failure
swallowed exactly when the disk save produced a path, otherwise propagated),
and finally fail when neither branch succeeded. -/
def exportCapture (image : NativeImage) (metadata : CaptureMetadata)
    (options : ExportOptions) (env : FsEnv) : Except JsError ExportResult :=
  let filePath : Option String :=
    if options.saveToDisk then
      match saveToDiskFn metadata options.outputFolder env with
      | .ok p => some p
      | .error _ => none
    else none
  let clipStep : Except JsError Bool :=
    if options.copyToClipboard then
      match env.clipError with
      | none => .ok true
      | some e => if filePath = none then .error (.plain e) else .ok false
    else .ok false
  match clipStep with
  | .error e => .error e
  | .ok copied =>
    if filePath = none ∧ copied = false then
      .error (.plain "Export failed: neither disk save nor clipboard copy succeeded")
    else
      .ok { filePath := filePath, copiedToClipboard := copied,
            buffer := image.toPNG }

/-! ## Region selection overlay (`src/main/regionOverlay.ts`)

The overlay module keeps three module-level variables: `overlayWindow`,
`selectionResolver` and `currentDisplayId`.  `showRegionSelector` closes any
existing overlay window, stores the new promise's resolver in
`selectionResolver`, and opens a new overlay window whose `closed` handler
resolves whatever resolver is currently stored with `null`.

Electron's `BrowserWindow.close()` is asynchronous: the `closed` event is
delivered from the event queue after the currently running JavaScript
completes, never from inside `close()` itself.  The model therefore queues a
`closed` event when `close()` is called and delivers it in a later step. -/

/-- The observable state of one region-selection promise. -/
inductive PromiseState where
  | pending
  | resolvedRegion (region : RegionBounds)
  | resolvedNull
deriving DecidableEq, Repr

/-- Module state of `regionOverlay.ts` plus the event queue and the promise
table.  Windows and sessions are numbered in creation order. -/
structure OverlayState where
  overlayWindow : Option Nat := none
  selectionResolver : Option Nat := none
  promises : List (Nat × PromiseState) := []
  closedQueue : List Nat := []
  nextWindow : Nat := 0
  nextSession : Nat := 0
deriving DecidableEq, Repr

/-- Store a promise outcome, keeping the table keyed by session id. -/
def setPromise (sid : Nat) (v : PromiseState) :
    List (Nat × PromiseState) → List (Nat × PromiseState)
  | [] => []
  | (k, old) :: rest =>
    if k = sid then (k, v) :: rest else (k, old) :: setPromise sid v rest

/-- Look a promise up by session id. -/
def getPromise (sid : Nat) : List (Nat × PromiseState) → Option PromiseState
  | [] => none
  | (k, v) :: rest => if k = sid then some v else getPromise sid rest

/-- `showRegionSelector()`: close any existing overlay (queueing its `closed`
event), then synchronously run the promise executor, which stores the new
resolver and creates the new overlay window.  Returns the new session id. -/
def showRegionSelector (s : OverlayState) : OverlayState × Nat :=
  let s :=
    match s.overlayWindow with
    | some w => { s with closedQueue := s.closedQueue ++ [w], overlayWindow := none }
    | none => s
  let sid := s.nextSession
  let wid := s.nextWindow
  ({ s with
      selectionResolver := some sid,
      overlayWindow := some wid,
      promises := s.promises ++ [(sid, .pending)],
      nextWindow := wid + 1,
      nextSession := sid + 1 },
   sid)

/-- Deliver the next queued `closed` event: the handler sets `overlayWindow`
to `null` and, when a resolver is still stored, resolves it with `null`. -/
def deliverClosed (s : OverlayState) : OverlayState :=
  match s.closedQueue with
  | [] => s
  | _w :: rest =>
    let s := { s with closedQueue := rest, overlayWindow := none }
    match s.selectionResolver with
    | some sid =>
      { s with promises := setPromise sid .resolvedNull s.promises,
               selectionResolver := none }
    | none => s

/-! ## Theorems -/

/-- Claim C6: for every input rect and display bounds, `clampRegionToDisplay`
returns a rect whose right edge never exceeds the display's right edge and
whose bottom edge never exceeds the display's bottom edge. -/
theorem clampRegionToDisplay_within_display (region displayBounds : RegionBounds) :
    (clampRegionToDisplay region displayBounds).x +
        (clampRegionToDisplay region displayBounds).width ≤
      displayBounds.x + displayBounds.width ∧
    (clampRegionToDisplay region displayBounds).y +
        (clampRegionToDisplay region displayBounds).height ≤
      displayBounds.y + displayBounds.height := by
  dsimp only [clampRegionToDisplay]
  constructor
  · have h := min_le_right region.width
      (displayBounds.x + displayBounds.width -
        max displayBounds.x (min region.x (displayBounds.x + displayBounds.width)))
    linarith
  · have h := min_le_right region.height
      (displayBounds.y + displayBounds.height -
        max displayBounds.y (min region.y (displayBounds.y + displayBounds.height)))
    linarith

/-- Claim C9 (amended): with zero enumerated displays,
`getVirtualScreenBounds` falls back to a rect at origin `(0, 0)` whose size
is the primary display's bounds size, keeping the function total for its
callers. -/
theorem getVirtualScreenBounds_empty_fallback (primary : DisplayInfo) :
    getVirtualScreenBounds [] primary =
      { x := 0, y := 0, width := primary.bounds.width,
        height := primary.bounds.height } :=
  rfl

/-- Claim C9, counterexample: with zero displays and a primary display whose
reported size is 1920 × 1080, the fallback rect has size 1920 × 1080, not
the size `(0, 0)` the claim states. -/
theorem getVirtualScreenBounds_empty_cex :
    getVirtualScreenBounds []
        { id := "1", bounds := { x := 0, y := 0, width := 1920, height := 1080 },
          size := { width := 1920, height := 1080 }, scaleFactor := 1 } =
      { x := 0, y := 0, width := 1920, height := 1080 } ∧
    ¬((getVirtualScreenBounds []
          { id := "1", bounds := { x := 0, y := 0, width := 1920, height := 1080 },
            size := { width := 1920, height := 1080 }, scaleFactor := 1 }).width = 0 ∧
      (getVirtualScreenBounds []
          { id := "1", bounds := { x := 0, y := 0, width := 1920, height := 1080 },
            size := { width := 1920, height := 1080 }, scaleFactor := 1 }).height = 0) := by
  refine ⟨rfl, ?_⟩
  rintro ⟨h, -⟩
  simp [getVirtualScreenBounds] at h

theorem roundtrip_component (q s : ℚ) (hs : 1 ≤ s) :
    |((jsRound ((jsRound (q * s) : ℚ) / s) : ℚ)) - q| ≤ 1 := by
  have hs0 : (0 : ℚ) < s := lt_of_lt_of_le one_pos hs
  set u : ℚ := (jsRound (q * s) : ℚ) with hu
  have h1 : |u - q * s| ≤ 1 / 2 := jsRound_sub_le _
  have h2 : |u / s - q| ≤ 1 / 2 := by
    have heq : u / s - q = (u - q * s) / s := by
      field_simp
      ring
    rw [heq, abs_div, abs_of_pos hs0]
    calc |u - q * s| / s ≤ (1 / 2) / s := by gcongr
    _ ≤ (1 / 2) / 1 := by gcongr
    _ = 1 / 2 := by norm_num
  have h3 : |(jsRound (u / s) : ℚ) - u / s| ≤ 1 / 2 := jsRound_sub_le _
  have hsplit : (jsRound (u / s) : ℚ) - q =
      ((jsRound (u / s) : ℚ) - u / s) + (u / s - q) := by ring
  calc |(jsRound (u / s) : ℚ) - q|
      = |((jsRound (u / s) : ℚ) - u / s) + (u / s - q)| := by rw [hsplit]
    _ ≤ |(jsRound (u / s) : ℚ) - u / s| + |u / s - q| := abs_add _ _
    _ ≤ 1 / 2 + 1 / 2 := add_le_add h3 h2
    _ = 1 := by norm_num

/-- Claim C3 (amended): for every rect and every scale factor `s ≥ 1`,
scaling to image pixels with `normalizeToImageCoords` and back with
`normalizeToScreenCoords` reproduces each component within 1 unit.  For
`0 < s < 1` the round trip can miss by more than 1 unit. -/
theorem normalize_roundtrip_within_one (r : RegionBounds) (s : ℚ) (hs : 1 ≤ s) :
    |(normalizeToScreenCoords (normalizeToImageCoords r s) s).x - r.x| ≤ 1 ∧
    |(normalizeToScreenCoords (normalizeToImageCoords r s) s).y - r.y| ≤ 1 ∧
    |(normalizeToScreenCoords (normalizeToImageCoords r s) s).width - r.width| ≤ 1 ∧
    |(normalizeToScreenCoords (normalizeToImageCoords r s) s).height - r.height| ≤ 1 := by
  refine ⟨?_, ?_, ?_, ?_⟩ <;>
    simpa [normalizeToScreenCoords, normalizeToImageCoords] using
      roundtrip_component _ s hs

/-- Claim C3, witness: the amended round-trip bound at the concrete rect
`(1/2, 3, 5, 7)` and scale factor 2. -/
theorem normalize_roundtrip_within_one_witness :
    (1 : ℚ) ≤ 2 ∧
    (|(normalizeToScreenCoords (normalizeToImageCoords
          { x := 1/2, y := 3, width := 5, height := 7 } 2) 2).x - 1/2| ≤ 1 ∧
     |(normalizeToScreenCoords (normalizeToImageCoords
          { x := 1/2, y := 3, width := 5, height := 7 } 2) 2).y - 3| ≤ 1 ∧
     |(normalizeToScreenCoords (normalizeToImageCoords
          { x := 1/2, y := 3, width := 5, height := 7 } 2) 2).width - 5| ≤ 1 ∧
     |(normalizeToScreenCoords (normalizeToImageCoords
          { x := 1/2, y := 3, width := 5, height := 7 } 2) 2).height - 7| ≤ 1) :=
  ⟨by norm_num,
   normalize_roundtrip_within_one { x := 1/2, y := 3, width := 5, height := 7 } 2
     (by norm_num)⟩

/-- Claim C3, counterexample: at scale factor `s = 1/4 > 0` the rect with all
components 2 round-trips to 4, an error of 2 units per axis, so the bound of
1 unit claimed for every `s > 0` fails. -/
theorem normalize_roundtrip_cex :
    (0 : ℚ) < 1/4 ∧
    normalizeToScreenCoords (normalizeToImageCoords
        { x := 2, y := 2, width := 2, height := 2 } (1/4)) (1/4) =
      { x := 4, y := 4, width := 4, height := 4 } ∧
    ¬(|(normalizeToScreenCoords (normalizeToImageCoords
          { x := 2, y := 2, width := 2, height := 2 } (1/4)) (1/4)).x - 2| ≤ 1) := by
  have h1 : normalizeToImageCoords { x := 2, y := 2, width := 2, height := 2 } (1/4) =
      { x := 1, y := 1, width := 1, height := 1 } := by
    simp only [normalizeToImageCoords, jsRound, RegionBounds.mk.injEq]
    norm_num
  have h2 : normalizeToScreenCoords { x := 1, y := 1, width := 1, height := 1 } (1/4) =
      { x := 4, y := 4, width := 4, height := 4 } := by
    simp only [normalizeToScreenCoords, jsRound, RegionBounds.mk.injEq]
    norm_num
  refine ⟨by norm_num, by rw [h1, h2], ?_⟩
  rw [h1, h2]
  norm_num

/-- Claim C7: `generateFileName` always produces
`grab-{YYYYMMDD}-{HHmmss}-{modeLabel}[-{sanitizedTarget}].{ext}` with the
mode label drawn from `fullscreen`, `display`, `window`, `region`; in
particular for display mode, target `Display-1` and local time
2026-01-15 10:30:45 it produces `grab-20260115-103045-display-Display-1.png`. -/
theorem generateFileName_format :
    (∀ options : FileNameOptions,
      generateFileName options =
        "grab-" ++ formatDate options.timestamp ++ "-" ++
          formatTime options.timestamp ++ "-" ++ getModeLabel options.mode ++
          targetSegment options.target ++ "." ++ options.ext.getD "png" ∧
      (getModeLabel options.mode = "fullscreen" ∨
        getModeLabel options.mode = "display" ∨
        getModeLabel options.mode = "window" ∨
        getModeLabel options.mode = "region")) ∧
    generateFileName
        { mode := .display, target := some "Display-1",
          timestamp := { year := 2026, month := 1, day := 15,
                         hour := 10, minute := 30, second := 45 } } =
      "grab-20260115-103045-display-Display-1.png" := by
  refine ⟨fun options => ⟨rfl, ?_⟩, ?_⟩
  · cases options.mode <;> simp [getModeLabel]
  · decide

theorem collapseRuns_mem {p : Char → Bool} {r : Char} :
    ∀ {b : Bool} {l : List Char} {c : Char},
      c ∈ collapseRuns p r b l → c = r ∨ c ∈ l := by
  intro b l
  induction l generalizing b with
  | nil => intro c h; simp [collapseRuns] at h
  | cons a as ih =>
    intro c h
    by_cases hpa : p a
    · rw [collapseRuns, if_pos hpa] at h
      cases b with
      | false =>
        rcases List.mem_cons.mp h with h | h
        · exact Or.inl h
        · rcases ih h with h | h
          · exact Or.inl h
          · exact Or.inr (List.mem_cons_of_mem a h)
      | true =>
        rcases ih h with h | h
        · exact Or.inl h
        · exact Or.inr (List.mem_cons_of_mem a h)
    · rw [collapseRuns, if_neg hpa] at h
      rcases List.mem_cons.mp h with h | h
      · exact Or.inr (h ▸ List.mem_cons_self a as)
      · rcases ih h with h | h
        · exact Or.inl h
        · exact Or.inr (List.mem_cons_of_mem a h)

theorem collapseRuns_mem_of_not {p : Char → Bool} {r : Char} {c : Char}
    (hc : p c = false) :
    ∀ {b : Bool} {l : List Char}, c ∈ l → c ∈ collapseRuns p r b l := by
  intro b l
  induction l generalizing b with
  | nil => intro h; cases h
  | cons a as ih =>
    intro h
    by_cases hpa : p a
    · have hca : c ≠ a := fun hcontra => by rw [hcontra, hpa] at hc; cases hc
      have hmem : c ∈ as := by
        rcases List.mem_cons.mp h with h | h
        · exact absurd h hca
        · exact h
      rw [collapseRuns, if_pos hpa]
      cases b with
      | false => exact List.mem_cons_of_mem r (ih hmem)
      | true => exact ih hmem
    · rw [collapseRuns, if_neg hpa]
      rcases List.mem_cons.mp h with h | h
      · exact h ▸ List.mem_cons_self a _
      · exact List.mem_cons_of_mem a (ih h)

theorem mem_dropWhile_of_mem {p : Char → Bool} {c : Char} (hc : p c = false) :
    ∀ {l : List Char}, c ∈ l → c ∈ l.dropWhile p := by
  intro l h
  induction l with
  | nil => cases h
  | cons a as ih =>
    by_cases hpa : p a
    · have hca : c ≠ a := fun hcontra => by rw [hcontra, hpa] at hc; cases hc
      have hmem : c ∈ as := by
        rcases List.mem_cons.mp h with h | h
        · exact absurd h hca
        · exact h
      rw [List.dropWhile_cons, if_pos hpa]
      exact ih hmem
    · rw [List.dropWhile_cons, if_neg hpa]
      exact h

theorem mem_of_mem_dropWhile {p : Char → Bool} {c : Char} :
    ∀ {l : List Char}, c ∈ l.dropWhile p → c ∈ l := by
  intro l h
  induction l with
  | nil => exact h
  | cons a as ih =>
    rw [List.dropWhile_cons] at h
    by_cases hpa : p a
    · rw [if_pos hpa] at h
      exact List.mem_cons_of_mem a (ih h)
    · rw [if_neg hpa] at h
      exact h

theorem mem_trimDashes_of_mem {c : Char} (hc : c ≠ '-') {l : List Char}
    (h : c ∈ l) : c ∈ trimDashes l := by
  have hb : (c == '-') = false := by
    simp only [beq_eq_false_iff_ne, ne_eq]
    exact hc
  rw [trimDashes, List.mem_reverse]
  exact mem_dropWhile_of_mem (p := (· == '-')) (c := c) hb
    (List.mem_reverse.mpr (mem_dropWhile_of_mem (p := (· == '-')) (c := c) hb h))

theorem mem_of_mem_trimDashes {c : Char} {l : List Char}
    (h : c ∈ trimDashes l) : c ∈ l := by
  rw [trimDashes, List.mem_reverse] at h
  exact mem_of_mem_dropWhile (List.mem_reverse.mp (mem_of_mem_dropWhile h))

theorem mem_of_mem_sanitizeChars {c : Char} {l : List Char}
    (h : c ∈ sanitizeChars l) :
    c = '-' ∨ (c ∈ l ∧ isIllegalChar c = false) := by
  have h1 := mem_of_mem_trimDashes (List.mem_of_mem_take h)
  rcases collapseRuns_mem h1 with h2 | h2
  · exact Or.inl h2
  · rcases collapseRuns_mem h2 with h3 | h3
    · exact Or.inl h3
    · have h4 := List.mem_filter.mp h3
      refine Or.inr ⟨h4.1, ?_⟩
      simpa using h4.2

/-- Claim C8 (amended): for every input string the output of
`sanitizeFileName` contains no filesystem-illegal character (in particular no
`<`, `>` or `:`), is at most 100 characters long, and is non-empty whenever
the input contains at least one character that is legal, is not whitespace,
and is not a dash.  (An input whose only legal characters are dashes or
whitespace, such as `"-"`, sanitizes to the empty string.) -/
theorem sanitizeFileName_spec (s : String) :
    (∀ c ∈ (sanitizeFileName s).data, isIllegalChar c = false) ∧
    (sanitizeFileName s).data.length ≤ 100 ∧
    ((∃ c ∈ s.data, isIllegalChar c = false ∧ isJsSpace c = false ∧ c ≠ '-') →
      sanitizeFileName s ≠ "") := by
  refine ⟨?_, ?_, ?_⟩
  · intro c hc
    rcases mem_of_mem_sanitizeChars hc with h | h
    · rw [h]; decide
    · exact h.2
  · exact List.length_take_le 100 _
  · rintro ⟨c, hcs, hleg, hws, hdash⟩ hempty
    have hbdash : (c == '-') = false := by
      simp only [beq_eq_false_iff_ne, ne_eq]
      exact hdash
    have h1 : c ∈ s.data.filter (fun ch => !isIllegalChar ch) :=
      List.mem_filter.mpr ⟨hcs, by simp [hleg]⟩
    have h2 : c ∈ collapseRuns isJsSpace '-' false
        (s.data.filter (fun ch => !isIllegalChar ch)) :=
      collapseRuns_mem_of_not hws h1
    have h3 : c ∈ collapseRuns (· == '-') '-' false
        (collapseRuns isJsSpace '-' false
          (s.data.filter (fun ch => !isIllegalChar ch))) :=
      collapseRuns_mem_of_not (p := (· == '-')) (c := c) hbdash h2
    have h4 : c ∈ trimDashes (collapseRuns (· == '-') '-' false
        (collapseRuns isJsSpace '-' false
          (s.data.filter (fun ch => !isIllegalChar ch)))) :=
      mem_trimDashes_of_mem hdash h3
    have h5 : sanitizeChars s.data ≠ [] := by
      rw [sanitizeChars]
      cases htd : trimDashes (collapseRuns (· == '-') '-' false
          (collapseRuns isJsSpace '-' false
            (s.data.filter (fun ch => !isIllegalChar ch)))) with
      | nil => rw [htd] at h4; cases h4
      | cons a as => simp
    have hdata : (sanitizeFileName s).data = sanitizeChars s.data := rfl
    apply h5
    rw [← hdata]
    have : (sanitizeFileName s).data = ("" : String).data := by rw [hempty]
    simpa using this

/-- Claim C8, witness: the input `My<>Window:Test` contains a legal,
non-whitespace, non-dash character, so its sanitized form is non-empty. -/
theorem sanitizeFileName_spec_witness :
    (∃ c ∈ ("My<>Window:Test" : String).data,
      isIllegalChar c = false ∧ isJsSpace c = false ∧ c ≠ '-') ∧
    sanitizeFileName "My<>Window:Test" ≠ "" :=
  ⟨by decide, (sanitizeFileName_spec "My<>Window:Test").2.2 (by decide)⟩

/-- Claim C8, counterexample: the input `"-"` consists of one legal (not
filesystem-illegal) character, yet `sanitizeFileName` maps it to the empty
string, refuting the claim that the output is non-empty whenever the input
contains a legal character. -/
theorem sanitizeFileName_cex :
    sanitizeFileName "-" = "" ∧
    '-' ∈ ("-" : String).data ∧ isIllegalChar '-' = false := by
  decide

/-- A concrete image used to instantiate the export and capture theorems. -/
def sampleImage : NativeImage :=
  { size := { width := 100, height := 50 }, png := [1, 2, 3] }

/-- Concrete metadata used to instantiate the export theorems. -/
def sampleMetadata : CaptureMetadata :=
  { mode := .region,
    bounds := { x := 0, y := 0, width := 10, height := 10 },
    timestamp := { year := 2026, month := 1, day := 15,
                   hour := 10, minute := 30, second := 45 },
    scaleFactor := 1,
    fileName := "grab-20260115-103045-region-region.png" }

/-- Claim C1: `exportCapture` succeeds exactly when at least one export
branch succeeded; every successful result carries a file path or the
clipboard flag, and when no branch succeeded (in particular when both were
attempted and both failed) the call propagates an error instead of
returning a result. -/
theorem exportCapture_contract (image : NativeImage) (metadata : CaptureMetadata)
    (options : ExportOptions) (env : FsEnv) :
    ((∃ result, exportCapture image metadata options env = .ok result) ↔
      ((options.saveToDisk = true ∧ env.diskError = none) ∨
        (options.copyToClipboard = true ∧ env.clipError = none))) ∧
    (∀ result, exportCapture image metadata options env = .ok result →
      result.filePath.isSome = true ∨ result.copiedToClipboard = true) ∧
    ((options.saveToDisk = true ∧ options.copyToClipboard = true ∧
        env.diskError ≠ none ∧ env.clipError ≠ none) →
      ∃ e, exportCapture image metadata options env = .error e) := by
  obtain ⟨sd, cc, onf⟩ := options
  obtain ⟨de, ce⟩ := env
  cases sd <;> cases cc <;> cases de <;> cases ce <;>
    simp [exportCapture, saveToDiskFn]

/-- Claim C1, witness: with both branches enabled and both collaborators
failing, the export call propagates an error. -/
theorem exportCapture_contract_witness :
    (true = true ∧ true = true ∧
      (some "disk full" : Option String) ≠ none ∧
      (some "clipboard busy" : Option String) ≠ none) ∧
    ∃ e, exportCapture sampleImage sampleMetadata
        { saveToDisk := true, copyToClipboard := true, outputFolder := "out" }
        { diskError := some "disk full", clipError := some "clipboard busy" } =
      .error e :=
  ⟨⟨rfl, rfl, by simp, by simp⟩,
   (exportCapture_contract sampleImage sampleMetadata
       { saveToDisk := true, copyToClipboard := true, outputFolder := "out" }
       { diskError := some "disk full", clipError := some "clipboard busy" }).2.2
     ⟨rfl, rfl, by simp, by simp⟩⟩

/-- Claim C2: when both export branches are enabled, the disk write throws
and the clipboard write succeeds, the disk failure is swallowed and the call
returns `ExportResult` with no file path and `copiedToClipboard = true`
without throwing. -/
theorem exportCapture_diskFail_clipOk (image : NativeImage)
    (metadata : CaptureMetadata) (options : ExportOptions) (env : FsEnv)
    (e : String)
    (hsd : options.saveToDisk = true) (hcc : options.copyToClipboard = true)
    (hde : env.diskError = some e) (hce : env.clipError = none) :
    exportCapture image metadata options env =
      .ok { filePath := none, copiedToClipboard := true,
            buffer := image.toPNG } := by
  obtain ⟨sd, cc, onf⟩ := options
  obtain ⟨de, ce⟩ := env
  simp only at hsd hcc hde hce
  subst hsd hcc hde hce
  simp [exportCapture, saveToDiskFn]

/-- Claim C2, witness: the disk-fails/clipboard-succeeds scenario at a
concrete image, metadata and environment. -/
theorem exportCapture_diskFail_clipOk_witness :
    exportCapture sampleImage sampleMetadata
        { saveToDisk := true, copyToClipboard := true, outputFolder := "out" }
        { diskError := some "disk full", clipError := none } =
      .ok { filePath := none, copiedToClipboard := true,
            buffer := sampleImage.toPNG } :=
  exportCapture_diskFail_clipOk sampleImage sampleMetadata
    { saveToDisk := true, copyToClipboard := true, outputFolder := "out" }
    { diskError := some "disk full", clipError := none } "disk full"
    rfl rfl rfl rfl

/-- Claim C4 (amended): for every region-mode request whose region has
non-positive width or height, `capture` throws the plain
`Error('Valid region required for region capture')` — the engine's
invalid-request rejection, carrying no `CaptureErrorCode` — before any call
to the grab primitive: the effect trace is empty. -/
theorem capture_invalid_region_no_grab (env : ScreenEnv) (now : DateParts)
    (request : CaptureRequest) (r : RegionBounds)
    (hmode : request.mode = .region) (hr : request.region = some r)
    (hinv : r.width ≤ 0 ∨ r.height ≤ 0) :
    capture env now request =
      (.error (.plain "Valid region required for region capture"), []) := by
  have hval : isValidRegion r = false := by
    rw [isValidRegion]
    rcases hinv with h | h
    · have hw : ¬(r.width > 0) := not_lt.mpr h
      simp [hw]
    · have hh : ¬(r.height > 0) := not_lt.mpr h
      simp [hh]
  simp [capture, hmode, hr, hval]

/-- A concrete display used by the sample capture environments. -/
def sampleDisplay : DisplayInfo :=
  { id := "1", bounds := { x := 0, y := 0, width := 1920, height := 1080 },
    size := { width := 1920, height := 1080 }, scaleFactor := 2 }

/-- A concrete platform environment with one display, one screen source and
one window source. -/
def sampleEnv : ScreenEnv :=
  { displays := [sampleDisplay],
    primary := sampleDisplay,
    screenSources :=
      [{ id := "screen:1", name := "Screen 1", display_id := "1",
         thumbnail := { size := { width := 3840, height := 2160 }, png := [0] } }],
    windowSources :=
      [{ id := "window:7", name := "My App", display_id := "1",
         thumbnail := { size := { width := 800, height := 600 }, png := [9] } }] }

/-- The sample wall-clock instant. -/
def sampleNow : DateParts :=
  { year := 2026, month := 1, day := 15, hour := 10, minute := 30, second := 45 }

/-- Claim C4, witness: the degenerate region `{x:0, y:0, width:0, height:50}`
is rejected with the plain invalid-region error and an empty grab trace. -/
theorem capture_invalid_region_no_grab_witness :
    ((0 : ℚ) ≤ 0 ∨ (50 : ℚ) ≤ 0) ∧
    capture sampleEnv sampleNow
        { mode := .region,
          region := some { x := 0, y := 0, width := 0, height := 50 } } =
      (.error (.plain "Valid region required for region capture"), []) :=
  ⟨Or.inl le_rfl,
   capture_invalid_region_no_grab sampleEnv sampleNow
     { mode := .region,
       region := some { x := 0, y := 0, width := 0, height := 50 } }
     { x := 0, y := 0, width := 0, height := 50 } rfl rfl (Or.inl le_rfl)⟩

/-- Claim C4, counterexample: the rejection is real and happens before any
grab, but the thrown value is a plain `Error` whose message is
`Valid region required for region capture`; it carries no
`CaptureErrorCode`, so in particular it is not an `INVALID_REQUEST`-coded
error (`createCaptureError` is never called on this path). -/
theorem capture_invalid_region_cex :
    capture sampleEnv sampleNow
        { mode := .region,
          region := some { x := 0, y := 0, width := 0, height := 50 } } =
      (.error (.plain "Valid region required for region capture"), []) ∧
    JsError.errCode (.plain "Valid region required for region capture") ≠
      some CaptureErrorCode.INVALID_REQUEST := by
  constructor
  · rfl
  · decide

/-- Claim C10: every successful window-mode capture reports the primary
display's scale factor, records no display id, and has bounds
`(0, 0, thumbnailWidth / primaryScale, thumbnailHeight / primaryScale)`
computed from the found window source's thumbnail — whichever display that
window actually occupies, and whatever scale factor that display has. -/
theorem captureWindow_uses_primary (env : ScreenEnv) (now : DateParts)
    (request : CaptureRequest) (result : NativeImage × CaptureMetadata)
    (effs : List GrabEffect)
    (hmode : request.mode = .window)
    (h : capture env now request = (.ok result, effs)) :
    result.2.scaleFactor = env.primary.scaleFactor ∧
    result.2.displayId = none ∧
    ∃ source,
      (env.sourcesFor [.window]).find? (fun s => s.id == source.id) = some source ∧
      request.windowId = some source.id ∧
      result.2.bounds =
        { x := 0, y := 0,
          width := source.thumbnail.size.width / env.primary.scaleFactor,
          height := source.thumbnail.size.height / env.primary.scaleFactor } := by
  cases hwid : request.windowId with
  | none => simp [capture, hmode, hwid] at h
  | some wid =>
    cases hfind : (env.sourcesFor [.window]).find? (fun s => s.id == wid) with
    | none => simp [capture, captureWindow, hmode, hwid, hfind] at h
    | some source =>
      have hid : source.id = wid := by
        have hpred := List.find?_some hfind
        simpa using hpred
      simp only [capture, captureWindow, hmode, hwid, hfind] at h
      rw [Prod.mk.injEq] at h
      obtain ⟨h1, h2⟩ := h
      rw [Except.ok.injEq] at h1
      subst h1
      refine ⟨rfl, rfl, source, ?_, ?_, rfl⟩
      · rw [hid]
        exact hfind
      · rw [hid]

/-- A platform environment whose only window source lives on a secondary
display with scale factor 3, while the primary display has scale factor 2. -/
def windowEnv : ScreenEnv :=
  { displays := [sampleDisplay,
      { id := "2", bounds := { x := 1920, y := 0, width := 1280, height := 1024 },
        size := { width := 1280, height := 1024 }, scaleFactor := 3 }],
    primary := sampleDisplay,
    screenSources :=
      [{ id := "screen:1", name := "Screen 1", display_id := "1",
         thumbnail := { size := { width := 3840, height := 2160 }, png := [0] } }],
    windowSources :=
      [{ id := "window:7", name := "My App", display_id := "2",
         thumbnail := { size := { width := 800, height := 600 }, png := [9] } }] }

/-- The value `capture` produces for the window capture in `windowEnv`. -/
def windowCaptureResult : NativeImage × CaptureMetadata :=
  ({ size := { width := 800, height := 600 }, png := [9] },
   { mode := .window, displayId := none, windowId := some "window:7",
     bounds := { x := 0, y := 0, width := 800 / 2, height := 600 / 2 },
     timestamp := sampleNow, scaleFactor := 2,
     fileName := "grab-20260115-103045-window-window7.png" })

/-- Claim C10, witness: capturing the window that sits on the secondary
scale-3 display still reports the primary display's scale factor 2 and
bounds computed from the thumbnail divided by 2. -/
theorem captureWindow_uses_primary_witness :
    capture windowEnv sampleNow { mode := .window, windowId := some "window:7" } =
      (.ok windowCaptureResult, [.getSources [.window]]) ∧
    (windowCaptureResult.2.scaleFactor = windowEnv.primary.scaleFactor ∧
      windowCaptureResult.2.displayId = none ∧
      ∃ source,
        (windowEnv.sourcesFor [.window]).find? (fun s => s.id == source.id) =
          some source ∧
        ({ mode := .window, windowId := some "window:7" } : CaptureRequest).windowId =
          some source.id ∧
        windowCaptureResult.2.bounds =
          { x := 0, y := 0,
            width := source.thumbnail.size.width / windowEnv.primary.scaleFactor,
            height := source.thumbnail.size.height / windowEnv.primary.scaleFactor }) := by
  have hcap : capture windowEnv sampleNow
      { mode := .window, windowId := some "window:7" } =
      (.ok windowCaptureResult, [.getSources [.window]]) := rfl
  exact ⟨hcap,
    captureWindow_uses_primary windowEnv sampleNow _ windowCaptureResult _ rfl hcap⟩

/-- Claim C5: the source intends a second trigger to cancel the first
session (resolve its promise with `null`) and leave the new session
untouched, but `BrowserWindow.close()` only queues the `closed` event, and
`showRegionSelector` overwrites the module-level `selectionResolver` with
the new session's resolver before that event is delivered.  When the first
window's `closed` handler finally runs it therefore resolves the NEW
session's promise with `null`, while the first session's promise stays
pending forever.  This theorem evaluates the model on the two-trigger
trace: session 0 is triggered, session 1 is triggered while session 0's
overlay is open, then the queued `closed` event of the first overlay is
delivered. -/
theorem second_trigger_cancels_wrong_session :
    getPromise (showRegionSelector ({} : OverlayState)).2
        (deliverClosed (showRegionSelector
          (showRegionSelector ({} : OverlayState)).1).1).promises =
      some .pending ∧
    getPromise (showRegionSelector (showRegionSelector ({} : OverlayState)).1).2
        (deliverClosed (showRegionSelector
          (showRegionSelector ({} : OverlayState)).1).1).promises =
      some .resolvedNull ∧
    (deliverClosed (showRegionSelector
        (showRegionSelector ({} : OverlayState)).1).1).closedQueue = [] := by
  decide
